import Mathlib

/-!
Verification of the declaration surface of `src/architect.d.ts` (module "AR").

The repository consists of a single TypeScript ambient declaration file.  The
embedding below is a faithful abstract syntax tree of that file: every
top-level declaration of the module, in source order, with its superclass,
implements clauses, members, member types and (where a claim turns on them)
its doc comments.  Method and function declarations carry an `Option Stmt`
body slot so that "the file contains no executable code" is a checkable fact
of the embedding rather than an artifact of the data type.
-/

set_option maxRecDepth 100000

namespace AR

mutual

/-- TypeScript type expressions as they occur in the file.  `unspecified`
stands for an omitted annotation (an untyped parameter or a method declared
without a return type). -/
inductive TSType where
  | named : String → TSType
  | strLit : String → TSType
  | unspecified : TSType
  | union : TSType → TSType → TSType
  | arr : TSType → TSType
  | fn : ParamList → TSType → TSType
  | obj : FieldList → TSType

inductive ParamList where
  | nil : ParamList
  | cons : String → Bool → TSType → ParamList → ParamList

inductive FieldList where
  | nil : FieldList
  | cons : String → Bool → TSType → FieldList → FieldList

end

/-- Statements, for the body slots of methods and functions.  The file
declares no bodies, so no value of this type occurs in the embedding; the
`call` constructor is what a call into another entity would be recorded as. -/
inductive Stmt where
  | skip : Stmt
  | call : String → Stmt
  | seq : Stmt → Stmt → Stmt

/-- A class member: a (possibly optional) field, a method signature with an
optional body and doc comment, or an overloaded constructor signature. -/
inductive Member where
  | field : String → Bool → TSType → Option String → Member
  | method : String → ParamList → TSType → Option Stmt → Option String → Member
  | ctor : ParamList → Option Stmt → Member

structure ClassDecl where
  name : String
  parent : Option String
  impls : List String
  doc : Option String
  members : List Member

/-- A top-level declaration of the module.  `functionD` and `varD` do not
occur in the file; they are the kinds a declaration with executable content
would use. -/
inductive Decl where
  | classD : ClassDecl → Decl
  | constD : String → TSType → Decl
  | typeAliasD : String → TSType → Decl
  | functionD : String → ParamList → TSType → Option Stmt → Decl
  | varD : String → TSType → Decl

inductive DeclKind where
  | classK | constK | typeAliasK | functionK | varK
  deriving DecidableEq

def kindOf : Decl → DeclKind
  | .classD _ => .classK
  | .constD _ _ => .constK
  | .typeAliasD _ _ => .typeAliasK
  | .functionD _ _ _ _ => .functionK
  | .varD _ _ => .varK

def declName : Decl → String
  | .classD c => c.name
  | .constD n _ => n
  | .typeAliasD n _ => n
  | .functionD n _ _ _ => n
  | .varD n _ => n

/-- Shorthand constructors used while transcribing the file. -/
def ps : List (String × Bool × TSType) → ParamList
  | [] => .nil
  | (n, o, t) :: r => .cons n o t (ps r)

def fl : List (String × Bool × TSType) → FieldList
  | [] => .nil
  | (n, o, t) :: r => .cons n o t (fl r)

def num : TSType := .named "number"
def boolT : TSType := .named "boolean"
def strT : TSType := .named "string"
def voidT : TSType := .named "void"
def anyT : TSType := .named "any"

/-- A required field with no individual doc comment. -/
def fld (n : String) (t : TSType) : Member := .field n false t none

/-- An optional field with no individual doc comment. -/
def optFld (n : String) (t : TSType) : Member := .field n true t none

/-- A method signature without a body or doc comment. -/
def mth (n : String) (p : List (String × Bool × TSType)) (r : TSType) : Member :=
  .method n (ps p) r none none

/-- An optional event-handler field: `name?: (params) => void`. -/
def hnd (n : String) (p : List (String × Bool × TSType)) : Member :=
  .field n true (.fn (ps p) voidT) none

def dragParams : List (String × Bool × TSType) :=
  [("xNormalized", false, num), ("yNormalized", false, num),
   ("xIntersection", false, num), ("yIntersection", false, num)]

def panParams : List (String × Bool × TSType) :=
  [("xNormalized", false, num), ("yNormalized", false, num)]

def angleParams : List (String × Bool × TSType) := [("angle", false, num)]

def scaleParams : List (String × Bool × TSType) := [("scale", false, num)]

/-- The thirteen gesture-handler fields that appear, with identical
signatures, in `Drawable`, `ARObject` and `_EVENT_HANDLERS`. -/
def eventHandlerMembers : List Member :=
  [ hnd "onClick" [("arObject", false, .named "ARObject")],
    hnd "onDragBegan" dragParams,
    hnd "onDragChanged" dragParams,
    hnd "onDragEnded" dragParams,
    hnd "onPanBegan" panParams,
    hnd "onPanChanged" panParams,
    hnd "onPanEnded" panParams,
    hnd "onRotationBegan" angleParams,
    hnd "onRotationChanged" angleParams,
    hnd "onRotationEnded" angleParams,
    hnd "onScaleBegan" scaleParams,
    hnd "onScaleChanged" scaleParams,
    hnd "onscaleEnded" scaleParams ]

/-! Transcription of the module's top-level declarations, in source order. -/

def RecognizedCallback : TSType :=
  .fn (ps [("recognized", false, boolT),
           ("recognitionData", false,
             .obj (fl [("targetInfo", true, anyT), ("metadata", true, anyT)]))]) voidT

def InterruptionCallback : TSType :=
  .fn (ps [("suggestedInterval", true, num)]) voidT

def ErrorCallback : TSType :=
  .fn (ps [("code", false, num), ("errorObject", false, .named "Error")]) voidT

def CONST : TSType := .obj (fl
  [ ("ANIMATION_GROUP_TYPE", false,
      .obj (fl [("PARALLEL", false, .strLit "parallel"),
                ("SEQUENTIAL", false, .strLit "sequential")])),
    ("CAMERA_FOCUS_MODE", false,
      .obj (fl [("ONCE", false, strT), ("CONTINUOUS", false, strT), ("OFF", false, strT)])),
    ("CAMERA_POSITION", false,
      .obj (fl [("FRONT", false, strT), ("BACK", false, strT)])),
    ("CLICK_BEHAVIOR", false,
      .obj (fl [("CLICK", false, strT), ("TOUCH_UP", false, strT), ("TOUCH_DOWN", false, strT)])),
    ("CLOUD_RECOGNITION_SERVER_REGION", false,
      .obj (fl [("AMERICAS", false, strT), ("CHINA", false, strT), ("EUROPE", false, strT)])),
    ("EASING_CURVE_TYPE", false, .named "EASING_CURVE_TYPE"),
    ("FONT_STYLE", false,
      .obj (fl [("NORMAL", false, strT), ("BOLD", false, strT), ("ITALIC", false, strT)])),
    ("HORIZONTAL_ANCHOR", false,
      .obj (fl [("LEFT", false, strT), ("CENTER", false, strT), ("RIGHT", false, strT)])),
    ("LOCATION_ACCURACY", false,
      .obj (fl [("HIGH", false, strT), ("MEDIUM", false, strT), ("LOW", false, strT)])),
    ("STATE", false,
      .obj (fl [("INITIALIZED", false, strT), ("LOADING", false, strT),
                ("LOADED", false, strT), ("PLAYING", false, strT), ("ERROR", false, strT)])),
    ("UNKNOWN_ALTITUDE", false, num),
    ("VERTICAL_ANCHOR", false,
      .obj (fl [("TOP", false, num), ("MIDDLE", false, num), ("BOTTOM", false, num)])) ])

def ARchitectObject : ClassDecl :=
  { name := "ARchitectObject", parent := none, impls := [],
    doc := some "ARchitectObject is the base class for each object created through the ARchitect.",
    members :=
      [ fld "destroyed" boolT,
        mth "destroy" [] voidT ] }

def ActionArea : ClassDecl :=
  { name := "ActionArea", parent := some "ARchitectObject", impls := [],
    doc := some "An ActionArea defines a certain geo area where actions should be executed on enter and on exit. An ActionArea is a 2-dimensional area, altitude will be ignored. As soon as the user enters the ActionArea, onEnter() will be executed (in case the function is defined). When the user leaves the ActionArea, onExit() will be executed (in case the function is defined).",
    members :=
      [ fld "enabled" boolT,
        .method "isInArea" (ps [("geoLocation", false, .named "Geolocation")]) boolT none
          (some "checks if a certain location is within this ActionArea. @param geoLocation - the GeoLocation that should be checked. @returns {boolean} true if the geoLocation passed to the method is within the ActionArea, false if the geoLocation passed to the method is not in the ActionArea"),
        .field "onEnter" true (.fn .nil voidT)
          (some "The trigger is executed when the user enters the ActionArea."),
        .field "onExit" true (.fn .nil voidT)
          (some "The trigger is executed when the user leaves the ActionArea.") ] }

def ActionRange : ClassDecl :=
  { name := "ActionRange", parent := some "ActionArea", impls := [],
    doc := some "An ActionRange defines a circle around a certain Location. Events are fired as soon as the user enters or leaves this circle.",
    members :=
      [ fld "location" (.named "Location"),
        fld "radius" num,
        .ctor (ps [("location", false, .named "Location"),
                   ("radius", false, num),
                   ("options", false,
                     .obj (fl [("enabled", false, boolT),
                               ("onEnter", true, .fn .nil voidT),
                               ("onExit", true, .fn .nil voidT)]))]) none ] }

def Drawable : ClassDecl :=
  { name := "Drawable", parent := some "ARchitectObject", impls := ["DrawableOptions"],
    doc := none,
    members :=
      [ fld "enabled" boolT,
        fld "mirrored" boolT,
        fld "rotate" (.named "Vector3"),
        fld "rotatesToCamera" boolT,
        fld "scale" (.named "Vector3"),
        fld "translate" (.named "Vector3") ] ++ eventHandlerMembers }

def Drawable2D : ClassDecl :=
  { name := "Drawable2D", parent := some "Drawable", impls := ["Drawable2DOptions"],
    doc := none,
    members :=
      [ fld "horizontalAnchor" num,
        fld "verticalAnchor" num,
        fld "zOrder" num,
        fld "opacity" num,
        .method "getBoundingRectangle" .nil (.named "BoundingRectangle") none
          (some "Returns the BoundingRectangle for this Drawable2D. In case of an error, null will be returned. @returns {BoundingRectangle} - the BoundingRectangle for the Drawable2D.") ] }

def ImageDrawable : ClassDecl :=
  { name := "ImageDrawable", parent := some "Drawable2D", impls := [], doc := none,
    members :=
      [ fld "height" num,
        fld "imageResource" (.named "ImageResource"),
        .ctor (ps [("imageResource", false, .named "ImageResource"),
                   ("height", false, num),
                   ("options", false, .named "Drawable2DOptions")]) none ] }

def AnimatedImageDrawable : ClassDecl :=
  { name := "AnimatedImageDrawable", parent := some "ImageDrawable", impls := [], doc := none,
    members :=
      [ .ctor (ps [("imageResource", false, .named "ImageResource"),
                   ("height", false, num),
                   ("keyFrameWidth", false, num),
                   ("keyFrameHeight", false, num),
                   ("options", true, .named "Drawable2DOptions")]) none,
        mth "animate" [("keyFrames", false, .arr num), ("duration", false, num),
                       ("loopTimes", true, num)] .unspecified,
        mth "setKeyFrame" [("keyFramePos", false, num)] .unspecified ] }

def ARObject : ClassDecl :=
  { name := "ARObject", parent := some "ARchitectObject", impls := [], doc := none,
    members :=
      [ fld "drawables" (.named "ARObjectDrawables"),
        fld "enabled" boolT,
        fld "renderingOrder" num,
        mth "isVisible" [] boolT ] ++ eventHandlerMembers }

def ARObjectDrawables : ClassDecl :=
  { name := "ARObjectDrawables", parent := none, impls := [], doc := none,
    members :=
      [ fld "cam" (.arr (.named "Drawable")),
        fld "addCamDrawable"
          (.fn (ps [("drawable", false, .union (.named "Drawable") (.arr (.named "Drawable"))),
                    ("position", false, num)]) voidT),
        fld "removeCamDrawable"
          (.fn (ps [("drawableOrPosition", false,
                      .union (.union (.named "Drawable") (.arr (.named "Drawable"))) num)])
            voidT) ] }

def Animation : ClassDecl :=
  { name := "Animation", parent := some "ARchitectObject", impls := [], doc := none,
    members :=
      [ mth "isRunning" [] boolT,
        mth "pause" [] voidT,
        mth "resume" [] voidT,
        mth "start" [] voidT,
        mth "stop" [] voidT,
        optFld "onStart" (.fn .nil voidT),
        optFld "onFinish" (.fn .nil voidT) ] }

def AnimationGroup : ClassDecl :=
  { name := "AnimationGroup", parent := some "Animation", impls := [], doc := none,
    members :=
      [ .ctor (ps [("type", false, strT),
                   ("animations", false, .arr (.named "Animation")),
                   ("options", false,
                     .obj (fl [("onStart", true, .fn .nil voidT),
                               ("onFinish", true, .fn .nil voidT)]))]) none ] }

def ImageResource : ClassDecl :=
  { name := "ImageResource", parent := some "ARchitectObject", impls := [], doc := none,
    members :=
      [ .ctor (ps [("uri", false, strT),
                   ("options", false,
                     .obj (fl [("onLoaded", true, .fn .nil voidT),
                               ("onError", true, voidT)]))]) none,
        mth "getHeight" [] num,
        mth "getWidth" [] num,
        mth "getUri" [] strT,
        mth "isLoaded" [] boolT,
        optFld "onLoaded" (.fn .nil voidT),
        optFld "onError" (.fn .nil voidT) ] }

def BoundingRectangle : ClassDecl :=
  { name := "BoundingRectangle", parent := none, impls := [], doc := none,
    members :=
      [ mth "getWidth" [] num,
        mth "getHeight" [] num ] }

def Location : ClassDecl :=
  { name := "Location", parent := some "ARchitectObject", impls := [],
    doc := some "Location is an abstract class which describes a general location of a POI in the augmented scene.",
    members :=
      [ .method "distanceTo" (ps [("location", false, .named "Location")]) num none
          (some "Returns the shortest distance (\"as the crow flies\") to the Location passed as an argument, ignoring any altitude property. @param {Location} location - The Location the distance should be calculated for. @returns {number} - The numeric distance in meters."),
        .method "distanceToUser" .nil num none
          (some "Returns the shortest distance (\"as the crow flies\") to the current location of the user, ignoring any altitude property. If the current position of the user cannot be determined, undefined will be returned. @returns {number|undefined}") ] }

def GeoLocation : ClassDecl :=
  { name := "GeoLocation", parent := some "Location", impls := [], doc := none,
    members :=
      [ fld "latitude" num,
        fld "longitude" num,
        fld "altitude" num,
        .ctor (ps [("latitude", false, num), ("longitude", false, num),
                   ("altitude", false, num)]) none ] }

def Circle : ClassDecl :=
  { name := "Circle", parent := some "Drawable2D", impls := [], doc := none,
    members :=
      [ fld "radius" num,
        fld "style" (.obj (fl [("fillColor", false, strT), ("outlineSize", false, num),
                               ("outlineColor", false, strT)])),
        .ctor (ps [("radius", false, num), ("options", true, .named "Drawable2DOptions")]) none ] }

def context : TSType := .obj (fl
  [ ("destroyAll", false, .fn .nil .unspecified),
    ("openInBrowser", false,
      .fn (ps [("url", false, strT), ("forceNativeBrowser", false, boolT)]) .unspecified),
    ("setCloudRecognitionServerRegion", false,
      .fn (ps [("region", false, strT),
               ("options", true,
                 .obj (fl [("serverUrl", false, strT),
                           ("onSuccess", true, .fn .nil voidT),
                           ("onError", true, .fn .nil voidT)]))]) .unspecified),
    ("startVideoPlayer", false, .fn (ps [("uri", false, .unspecified)]) .unspecified),
    ("clickBehavior", false, strT),
    ("scene", false,
      .obj (fl [("cullingDistance", false, num),
                ("globalScale", false, num),
                ("maxScalingDistance", false, num),
                ("minScalingDistance", false, num),
                ("scalingFactor", false, num),
                ("versionNumber", false, strT)])),
    ("on2FingerGestureEnded", true, .fn .nil voidT),
    ("on2FingerGestureStarted", true, .fn .nil voidT),
    ("onDragBegan", true, .fn (ps panParams) voidT),
    ("onDragChanged", true, .fn (ps panParams) voidT),
    ("onDragEnded", true, .fn (ps panParams) voidT),
    ("onLocationChanged", true,
      .fn (ps [("latitude", false, num), ("longitude", false, num),
               ("altitude", false, num), ("accuracy", false, num)]) voidT),
    ("onPanBegan", true, .fn (ps panParams) voidT),
    ("onPanChanged", true, .fn (ps panParams) voidT),
    ("onPanEnded", true, .fn (ps panParams) voidT),
    ("onRotationBegan", true, .fn (ps angleParams) voidT),
    ("onRotationChanged", true, .fn (ps angleParams) voidT),
    ("onRotationEnded", true, .fn (ps angleParams) voidT),
    ("onScaleBegan", true, .fn (ps scaleParams) voidT),
    ("onScaleChanged", true, .fn (ps scaleParams) voidT),
    ("onscaleEnded", true, .fn (ps scaleParams) voidT),
    ("onScreenClick", true, .fn .nil voidT) ])

def hardware : TSType := .obj (fl
  [ ("camera", false,
      .obj (fl [("enabled", false, boolT),
                ("features", false, .obj .nil),
                ("flashlightAvailable", false, boolT),
                ("focusDistance", false, num),
                ("manualFocusAvailable", false, num),
                ("position", false, .obj .nil),
                ("zoom", false, num)])),
    ("sensors", false,
      .obj (fl [("enabled", false, boolT),
                ("compass", false, .obj (fl [("correctionAngle", false, num)]))])) ])

def HtmlDrawable : ClassDecl :=
  { name := "HtmlDrawable", parent := some "Drawable2D", impls := [], doc := none,
    members :=
      [ fld "allowDocumentLocationChanges" boolT,
        fld "backgroundColor" strT,
        fld "clickThroughEnabled" strT,
        fld "html" strT,
        fld "uri" strT,
        fld "viewportHeight" num,
        fld "viewportWidth" num,
        fld "width" num,
        .ctor (ps [("content", false, .obj (fl [("html", true, strT), ("uri", true, strT)])),
                   ("width", false, num),
                   ("options", false, .unspecified)]) none,
        mth "evalJavaScript" [("js", false, strT)] .unspecified ] }

def GeoObject : ClassDecl :=
  { name := "GeoObject", parent := some "ARObject", impls := [], doc := none,
    members :=
      [ fld "drawables" (.named "GeoObjectDrawables"),
        .ctor (ps [("location", false, .union (.named "Location") (.arr (.named "Location"))),
                   ("options", true, .named "GeoObjectOptions")]) none ] }

def GeoObjectDrawables : ClassDecl :=
  { name := "GeoObjectDrawables", parent := some "ARObjectDrawables", impls := [], doc := none,
    members :=
      [ fld "indicator" (.arr (.named "Drawable2D")),
        fld "radar" (.arr (.named "Drawable2D")),
        fld "locations" (.arr (.named "Location")),
        mth "addIndicatorDrawable"
          [("drawable", false, .union (.named "Drawable2D") (.arr (.named "Drawable2D"))),
           ("position", false, num)] voidT,
        mth "addRadarDrawable"
          [("drawable", false, .union (.named "Drawable2D") (.arr (.named "Drawable2D"))),
           ("position", false, num)] voidT,
        mth "removeIndicatorDrawable"
          [("drawableOrPosition", false,
             .union (.union (.named "Drawable2D") (.arr (.named "Drawable2D"))) num)] voidT,
        optFld "onEnterFieldOfVision" (.fn .nil voidT),
        optFld "onExitFieldOfVision" (.fn .nil voidT) ] }

def EasingCurve : ClassDecl :=
  { name := "EasingCurve", parent := some "ARchitectObject", impls := [], doc := none,
    members :=
      [ fld "amplitude" num,
        fld "overshoot" num,
        fld "period" num,
        .ctor (ps [("type", false, strT),
                   ("options", true,
                     .obj (fl [("amplitude", true, num), ("overshoot", true, num),
                               ("period", true, num)]))]) none ] }

def logger : TSType := .obj (fl
  [ ("activateDebugMode", false, .fn .nil voidT),
    ("debug", false, .fn (ps [("message", false, strT)]) voidT),
    ("error", false, .fn (ps [("message", false, strT)]) voidT),
    ("info", false, .fn (ps [("message", false, strT)]) voidT),
    ("warning", false, .fn (ps [("message", false, strT)]) voidT) ])

def platform : TSType := .obj (fl
  [ ("sendJSONObject", false, .fn (ps [("jsonData", false, anyT)]) .unspecified) ])

def ImageTrackable : ClassDecl :=
  { name := "ImageTrackable", parent := some "ARObject", impls := [], doc := none,
    members :=
      [ fld "aspectRatio" num,
        fld "enableExtendedTracking" boolT,
        fld "extendedTarget" strT,
        fld "targetName" strT,
        fld "tracker" (.named "ImageTracker"),
        .ctor (ps [("tracker", false, .named "ImageTracker"),
                   ("targetName", false, strT),
                   ("options", false, .named "ImageTrackableOptions")]) none,
        mth "stopExtendedTracking" [] .unspecified,
        hnd "onExtendedTrackingQualityChanged"
          [("targetName", false, strT), ("previousQuality", false, num),
           ("newQuality", false, num)] ] }

def ImageTracker : ClassDecl :=
  { name := "ImageTracker", parent := some "ARchitectObject", impls := [], doc := none,
    members :=
      [ optFld "enabled" boolT,
        optFld "physicalTargetImageHeights" anyT,
        .ctor (ps [("tracker", false, .named "TargetCollectionResource"),
                   ("options", true, .named "ImageTrackerOptions")]) none,
        .ctor (ps [("tracker", false, .named "CloudRecognitionService"),
                   ("options", true, .named "ImageTrackerOptions")]) none,
        optFld "onDisabled" (.fn .nil voidT),
        optFld "onError" (.fn .nil voidT),
        optFld "onTargetsLoaded" (.fn .nil voidT) ] }

def ImageTrackerOptions : ClassDecl :=
  { name := "ImageTrackerOptions", parent := none, impls := [], doc := none,
    members :=
      [ optFld "enabled" boolT,
        optFld "physicalTargetImageHeights" anyT,
        optFld "onTargetsLoaded" (.fn .nil voidT),
        optFld "onError" (.fn .nil voidT),
        optFld "onDisabled" (.fn .nil voidT) ] }

def TargetCollectionResource : ClassDecl :=
  { name := "TargetCollectionResource", parent := some "ARchitectObject", impls := [], doc := none,
    members :=
      [ fld "loading" boolT,
        fld "URL" strT,
        .ctor (ps [("URL", false, strT),
                   ("options", true,
                     .obj (fl [("onLoaded", true, .fn .nil voidT),
                               ("onError", true, .fn .nil voidT)]))]) none,
        mth "cancel" [] .unspecified,
        optFld "onError" (.fn .nil voidT),
        optFld "onLoaded" (.fn .nil voidT) ] }

def CloudRecognitionService : ClassDecl :=
  { name := "CloudRecognitionService", parent := some "ARchitectObject", impls := [], doc := none,
    members :=
      [ optFld "clientToken" strT,
        optFld "targetCollectionId" strT,
        mth "recognize"
          [("onRecognized", true, .named "RecognizedCallback"),
           ("onError", true, .named "ErrorCallback")] voidT,
        mth "startContinuousRecognition"
          [("interval", false, num),
           ("onInterruptionCallback", true, .named "InterruptionCallback"),
           ("onRecognizedCallback", true, .named "RecognizedCallback"),
           ("onErrorCallback", true, .named "ErrorCallback")] voidT,
        mth "stopContinuousRecognition" [] voidT,
        optFld "onError" (.fn .nil voidT),
        optFld "onInitialized" (.fn .nil voidT) ] }

def ImageTrackableOptions : ClassDecl :=
  { name := "ImageTrackableOptions", parent := some "Drawable2DOptions", impls := [], doc := none,
    members :=
      [ optFld "renderingOrder" num,
        optFld "onImageRecognised" (.fn .nil voidT),
        optFld "onImageLost" (.fn .nil voidT),
        optFld "drawables" (.obj (fl [("cam", false, .arr (.named "Drawable"))])),
        optFld "distanceToTarget"
          (.obj (fl [("changedThreshold", false, num),
                     ("onDistanceChanged", true, .fn .nil voidT)])),
        optFld "enableExtendedTracking" boolT,
        optFld "entendedTarget" strT,
        optFld "extendedTrackingQualityChanged" (.fn .nil voidT) ] }

def tpParams : List (String × Bool × TSType) :=
  [("xIntersection", false, num), ("yIntersection", false, num)]

def InstantTrackable : ClassDecl :=
  { name := "InstantTrackable", parent := some "ARObject", impls := [], doc := none,
    members :=
      [ fld "tracker" (.named "InstantTracker"),
        .ctor (ps [("tacker", false, .named "InstantTracker"),
                   ("options", true, .named "InstantTrackableOptions")]) none,
        optFld "onTrackingStarted" (.fn .nil voidT),
        optFld "onTrackingStopped" (.fn .nil voidT),
        hnd "onTrackingPlaneClick" tpParams,
        hnd "onTrackingPlaneDragBegan" tpParams,
        hnd "onTrackingPlaneDragChanged" tpParams,
        hnd "onTrackingPlaneDragEnded" tpParams ] }

def InstantTrackableOptions : ClassDecl :=
  { name := "InstantTrackableOptions", parent := some "_EVENT_HANDLERS", impls := [], doc := none,
    members :=
      [ optFld "enabled" boolT,
        optFld "renderingOrder" num,
        fld "drawables" (.obj (fl [("cam", false, .arr (.named "Drawable")),
                                   ("initialization", false, .arr (.named "Drawable"))])),
        optFld "onTrackingStarted" (.fn .nil voidT),
        optFld "onTrackingStopped" (.fn .nil voidT),
        hnd "onTrackingPlaneClick" tpParams,
        hnd "onTrackingPlaneDragBegan" tpParams,
        hnd "onTrackingPlaneDragChanged" tpParams,
        hnd "onTrackingPlaneDragEnded" tpParams ] }

def InstantTracker : ClassDecl :=
  { name := "InstantTracker", parent := some "ARchitectObject", impls := [], doc := none,
    members :=
      [ optFld "enabled" boolT,
        optFld "state" num,
        optFld "deviceHeight" strT,
        .ctor (ps [("options", true,
                     .obj (fl [("enabled", true, boolT),
                               ("onError", true, .fn .nil voidT),
                               ("onDisabled", true, .fn .nil voidT),
                               ("onChangedState", true, .fn .nil voidT),
                               ("deviceHeight", true, num)]))]) none,
        optFld "onError" (.fn .nil voidT),
        optFld "onDisabled" (.fn .nil voidT),
        optFld "onChangedState" (.fn .nil voidT) ] }

def EASING_CURVE_TYPE : ClassDecl :=
  { name := "EASING_CURVE_TYPE", parent := none, impls := [], doc := none,
    members :=
      [ fld "LINEAR" (.strLit "linear"),
        fld "EASE_IN_QUAD" (.strLit "easeInQuad"),
        fld "EASE_OUT_QUAD" (.strLit "easeOutQuad"),
        fld "EASE_IN_OUT_QUAD" (.strLit "easeInOutQuad"),
        fld "EASE_OUT_IN_QUAD" (.strLit "easeOutInQuad"),
        fld "EASE_IN_CUBIC" (.strLit "easeInCubic"),
        fld "EASE_OUT_CUBIC" (.strLit "easeOutCubic"),
        fld "EASE_IN_OUT_CUBIC" (.strLit "easeInOutCubic"),
        fld "EASE_OUT_IN_CUBIC" (.strLit "easeOutInCubic"),
        fld "EASE_IN_QUAT" (.strLit "easeInQuat"),
        fld "EASE_OUT_QUAT" (.strLit "easeOutQuat"),
        fld "EASE_IN_OUT_QUAT" (.strLit "easeInOutQuat"),
        fld "EASE_OUT_IN_QUAT" (.strLit "easeOutInQuat"),
        fld "EASE_IN_QUINT" (.strLit "easeInQuint"),
        fld "EASE_OUT_QUINT" (.strLit "easeOutQuint"),
        fld "EASE_IN_OUT_QUINT" (.strLit "easeInOutQuint"),
        fld "EASE_OUT_IN_QUINT" (.strLit "easeOutInQuint"),
        fld "EASE_IN_ELASTIC" (.strLit "easeInElastic"),
        fld "EASE_OUT_ELASTIC" (.strLit "easeOutElastic"),
        fld "EASE_IN_OUT_ELASTIC" (.strLit "easeInOutElastic"),
        fld "EASE_OUT_IN_ELASTIC" (.strLit "easeOutInElastic"),
        fld "EASE_IN_BACK" (.strLit "easeInBack"),
        fld "EASE_OUT_BACK" (.strLit "easeOutBack"),
        fld "EASE_IN_OUT_BACK" (.strLit "easeInOutBack"),
        fld "EASE_OUT_IN_BACK" (.strLit "easeOutInBack"),
        fld "EASE_IN_SINE" (.strLit "easeInSine"),
        fld "EASE_OUT_SINE" (.strLit "easeOutSine"),
        fld "EASE_IN_OUT_SINE" (.strLit "easeInOutSine"),
        fld "EASE_OUT_IN_SINE" (.strLit "easeOutInSine"),
        fld "EASE_IN_EXPO" (.strLit "easeInExpo"),
        fld "EASE_OUT_EXPO" (.strLit "easeOutExpo"),
        fld "EASE_IN_OUT_EXPO" (.strLit "easeInOutExpo"),
        fld "EASE_OUT_IN_EXPO" (.strLit "easeOutInExpo"),
        fld "EASE_IN_CIRC" (.strLit "easeInCirc"),
        fld "EASE_OUT_CIRC" (.strLit "easeOutCirc"),
        fld "EASE_IN_OUT_CIRC" (.strLit "easeInOutCirc"),
        fld "EASE_OUT_IN_CIRC" (.strLit "easeOutInCirc"),
        fld "EASE_IN_BOUNCE" (.strLit "easeInBounce"),
        fld "EASE_OUT_BOUNCE" (.strLit "easeOutBounce"),
        fld "EASE_IN_OUT_BOUNCE" (.strLit "easeInOutBounce"),
        fld "EASE_OUT_IN_BOUNCE" (.strLit "easeOutInBounce"),
        fld "EASE_IN_CURVE" (.strLit "easeInCurve"),
        fld "EASE_OUT_CURVE" (.strLit "easeOutCurve") ] }

def DrawableOptions : ClassDecl :=
  { name := "DrawableOptions", parent := some "_EVENT_HANDLERS", impls := [], doc := none,
    members :=
      [ optFld "enabled" boolT,
        optFld "mirrored" boolT,
        optFld "rotate" (.named "Vector3"),
        optFld "rotatesToCamera" boolT,
        optFld "scale" (.named "Vector3"),
        optFld "translate" (.named "Vector3") ] }

def Drawable2DOptions : ClassDecl :=
  { name := "Drawable2DOptions", parent := some "DrawableOptions", impls := [], doc := none,
    members :=
      [ optFld "opacity" num,
        optFld "horizontalAnchor" num,
        optFld "verticalAnchor" num,
        optFld "zOrder" num ] }

def GeoObjectOptions : ClassDecl :=
  { name := "GeoObjectOptions", parent := some "DrawableOptions", impls := [], doc := none,
    members :=
      [ fld "drawables"
          (.obj (fl [("cam", false, .union (.named "Drawable2D") (.arr (.named "Drawable2D")))])),
        optFld "renderingOrder" num,
        optFld "onEnterFieldOfVision" (.fn .nil voidT),
        optFld "onExitFieldOfVision" (.fn .nil voidT) ] }

def Label : ClassDecl :=
  { name := "Label", parent := some "Drawable2D", impls := [], doc := none,
    members :=
      [ fld "height" num,
        fld "style" (.obj (fl [("backgroundColor", false, strT), ("textColor", false, strT),
                               ("fontStyle", false, num)])),
        fld "text" strT,
        .ctor (ps [("text", false, strT), ("height", false, num),
                   ("options", true, .named "LabelOptions")]) none ] }

def Model : ClassDecl :=
  { name := "Model", parent := some "Drawable", impls := [], doc := none,
    members :=
      [ fld "uri" strT,
        .ctor (ps [("uri", false, strT), ("options", false, .named "DrawableOptions")]) none,
        mth "isInitialized" [] boolT,
        mth "isLoaded" [] boolT,
        optFld "onError" (.fn .nil voidT),
        optFld "onInitialized" (.fn .nil voidT),
        optFld "onLoaded" (.fn .nil voidT) ] }

def ModelAnimation : ClassDecl :=
  { name := "ModelAnimation", parent := some "Animation", impls := [], doc := none,
    members :=
      [ .ctor (ps [("model", false, .named "Model"),
                   ("animationId", false, strT),
                   ("options", true,
                     .obj (fl [("onStart", true, .fn .nil voidT),
                               ("onFinish", true, .fn .nil voidT)])),
                   ("duration", true, num)]) none ] }

def Positionable : ClassDecl :=
  { name := "Positionable", parent := some "ARObject", impls := [], doc := none,
    members :=
      [ fld "name" strT,
        .ctor (ps [("name", false, strT),
                   ("options", true, .named "PositionableOptions")]) none ] }

def PositionableOptions : ClassDecl :=
  { name := "PositionableOptions", parent := some "DrawableOptions", impls := [], doc := none,
    members :=
      [ fld "drawables" (.obj (fl [("cam", false, .arr (.named "Drawable"))])),
        optFld "onEnterFieldOfVision" (.fn .nil voidT),
        optFld "onExitFieldOfVision" (.fn .nil voidT) ] }

def LabelOptions : ClassDecl :=
  { name := "LabelOptions", parent := some "Drawable2DOptions", impls := [], doc := none,
    members :=
      [ fld "style" (.obj (fl [("backgroundColor", false, strT), ("textColor", false, strT),
                               ("fontStyle", false, num)])) ] }

def PropertyAnimation : ClassDecl :=
  { name := "PropertyAnimation", parent := some "Animation", impls := [], doc := none,
    members :=
      [ .ctor (ps [("target", false, .named "ARchitectObject"),
                   ("property", false, strT),
                   ("start", false, num),
                   ("end", false, num),
                   ("duration", false, num),
                   ("easingCurve", true, .named "EasingCurve"),
                   ("options", true,
                     .obj (fl [("onStart", true, .fn .nil voidT),
                               ("onFinish", true, .fn .nil voidT)]))]) none ] }

def RelativeLocation : ClassDecl :=
  { name := "RelativeLocation", parent := some "Location", impls := [], doc := none,
    members :=
      [ fld "altitudeDelta" num,
        fld "easting" num,
        fld "northing" num,
        fld "location" (.named "Location"),
        .ctor (ps [("location", false, .named "Location"),
                   ("northing", false, num),
                   ("easting", false, num),
                   ("altitudeDelta", true, num)]) none ] }

def callback : TSType := .fn (ps [("arg", false, .arr anyT)]) voidT

def Sound : ClassDecl :=
  { name := "Sound", parent := some "ARchitectObject", impls := [], doc := none,
    members :=
      [ fld "state" num,
        .ctor (ps [("uri", false, strT),
                   ("options", true,
                     .obj (fl [("onLoaded", true, .named "callback"),
                               ("onError", true, .named "callback"),
                               ("onFinishedPlaying", true, .named "callback")]))]) none,
        mth "load" [] .unspecified,
        mth "pause" [] .unspecified,
        mth "play" [("loopTimes", false, num)] .unspecified,
        mth "resume" [] .unspecified,
        mth "stop" [] .unspecified,
        optFld "onLoaded" (.named "callback"),
        optFld "onError" (.named "callback"),
        optFld "onFinishedPlaying" (.named "callback") ] }

def Style : ClassDecl :=
  { name := "Style", parent := none, impls := [], doc := none,
    members :=
      [ fld "backgroundColor" strT,
        fld "fillColor" strT,
        fld "fontStyle" strT,
        fld "outlineColor" strT,
        fld "outlineSize" num,
        fld "textColor" strT ] }

def VideoDrawable : ClassDecl :=
  { name := "VideoDrawable", parent := some "Drawable2D", impls := [], doc := none,
    members :=
      [ fld "height" num,
        .ctor (ps [("uri", false, strT), ("height", false, num),
                   ("options", true, .named "VideoDrawableOptions")]) none,
        mth "getUri" [] strT,
        mth "isTransparent" [] boolT,
        mth "pause" [] .unspecified,
        mth "play" [("loopTimes", false, num)] .unspecified,
        mth "resume" [] .unspecified,
        mth "stop" [] .unspecified,
        optFld "onPlaybackStarted" (.named "callback"),
        optFld "onFinishedPlaying" (.named "callback"),
        optFld "onFinish" (.named "callback"),
        optFld "onLoaded" (.named "callback") ] }

def radar : ClassDecl :=
  { name := "radar", parent := none, impls := [], doc := none,
    members :=
      [ fld "background" (.named "ImageResource"),
        fld "centerX" num,
        fld "centerY" num,
        fld "container" (.named "Element"),
        fld "enabled" boolT,
        fld "northIndicator"
          (.obj (fl [("image", false, .named "ImageResource"), ("radius", false, num)])),
        fld "radius" num,
        mth "notifyUpdateRadarPosition" [] .unspecified ] }

def VideoDrawableOptions : ClassDecl :=
  { name := "VideoDrawableOptions", parent := some "Drawable2DOptions", impls := [], doc := none,
    members :=
      [ optFld "isTransparent" boolT,
        optFld "onPlaybackStarted" (.named "callback"),
        optFld "onFinishedPlaying" (.named "callback"),
        optFld "onFinish" (.named "callback"),
        optFld "onLoaded" (.named "callback") ] }

def Vector3 : ClassDecl :=
  { name := "Vector3", parent := none, impls := [], doc := none,
    members :=
      [ fld "x" num,
        fld "y" num,
        fld "z" num,
        optFld "global" (.named "Vector3") ] }

def EVENT_HANDLERS : ClassDecl :=
  { name := "_EVENT_HANDLERS", parent := none, impls := [], doc := none,
    members := eventHandlerMembers }

/-- The module body of `declare module "AR"`, in source order. -/
def decls : List Decl :=
  [ .typeAliasD "RecognizedCallback" RecognizedCallback,
    .typeAliasD "InterruptionCallback" InterruptionCallback,
    .typeAliasD "ErrorCallback" ErrorCallback,
    .constD "CONST" CONST,
    .classD ARchitectObject,
    .classD ActionArea,
    .classD ActionRange,
    .classD Drawable,
    .classD Drawable2D,
    .classD ImageDrawable,
    .classD AnimatedImageDrawable,
    .classD ARObject,
    .classD ARObjectDrawables,
    .classD Animation,
    .classD AnimationGroup,
    .classD ImageResource,
    .classD BoundingRectangle,
    .classD Location,
    .classD GeoLocation,
    .classD Circle,
    .constD "context" context,
    .constD "hardware" hardware,
    .classD HtmlDrawable,
    .classD GeoObject,
    .classD GeoObjectDrawables,
    .classD EasingCurve,
    .constD "logger" logger,
    .constD "platform" platform,
    .classD ImageTrackable,
    .classD ImageTracker,
    .classD ImageTrackerOptions,
    .classD TargetCollectionResource,
    .classD CloudRecognitionService,
    .classD ImageTrackableOptions,
    .classD InstantTrackable,
    .classD InstantTrackableOptions,
    .classD InstantTracker,
    .classD EASING_CURVE_TYPE,
    .classD DrawableOptions,
    .classD Drawable2DOptions,
    .classD GeoObjectOptions,
    .classD Label,
    .classD Model,
    .classD ModelAnimation,
    .classD Positionable,
    .classD PositionableOptions,
    .classD LabelOptions,
    .classD PropertyAnimation,
    .classD RelativeLocation,
    .typeAliasD "callback" callback,
    .classD Sound,
    .classD Style,
    .classD VideoDrawable,
    .classD radar,
    .classD VideoDrawableOptions,
    .classD Vector3,
    .classD EVENT_HANDLERS ]

/-! Analysis functions over the embedded declaration surface. -/

/-- `charsLead pat text` holds when `pat` is an initial run of `text`. -/
def charsLead : List Char → List Char → Bool
  | [], _ => true
  | _ :: _, [] => false
  | c :: cs, d :: ds => c == d && charsLead cs ds

/-- `subList pat text` holds when `pat` occurs contiguously inside `text`. -/
def subList (pat : List Char) : List Char → Bool
  | [] => pat.isEmpty
  | d :: ds => charsLead pat (d :: ds) || subList pat ds

/-- `strHas s pat`: the string `s` contains `pat` as a substring. -/
def strHas (s pat : String) : Bool := subList pat.data s.data

mutual

/-- All type names referenced inside a type expression, including inside
unions, arrays, function parameter and return types, and object types. -/
def tyRefs : TSType → List String
  | .named n => [n]
  | .strLit _ => []
  | .unspecified => []
  | .union a b => tyRefs a ++ tyRefs b
  | .arr t => tyRefs t
  | .fn p r => plRefs p ++ tyRefs r
  | .obj fs => flRefs fs

def plRefs : ParamList → List String
  | .nil => []
  | .cons _ _ t rest => tyRefs t ++ plRefs rest

def flRefs : FieldList → List String
  | .nil => []
  | .cons _ _ t rest => tyRefs t ++ flRefs rest

end

mutual

/-- All property names declared inside a type expression (the keys of object
types, recursively). -/
def tyFields : TSType → List String
  | .named _ => []
  | .strLit _ => []
  | .unspecified => []
  | .union a b => tyFields a ++ tyFields b
  | .arr t => tyFields t
  | .fn p r => plFields p ++ tyFields r
  | .obj fs => flFields fs

def plFields : ParamList → List String
  | .nil => []
  | .cons _ _ t rest => tyFields t ++ plFields rest

def flFields : FieldList → List String
  | .nil => []
  | .cons n _ t rest => n :: (tyFields t ++ flFields rest)

end

def memberHasBody : Member → Bool
  | .field _ _ _ _ => false
  | .method _ _ _ b _ => b.isSome
  | .ctor _ b => b.isSome

/-- Calls appearing in a statement. -/
def stmtCalls : Stmt → List String
  | .skip => []
  | .call f => [f]
  | .seq a b => stmtCalls a ++ stmtCalls b

def memberCalls : Member → List String
  | .field _ _ _ _ => []
  | .method _ _ _ b _ => (b.map stmtCalls).getD []
  | .ctor _ b => (b.map stmtCalls).getD []

def declHasNoBody : Decl → Bool
  | .classD c => c.members.all (fun m => !memberHasBody m)
  | .constD _ _ => true
  | .typeAliasD _ _ => true
  | .functionD _ _ _ b => !b.isSome
  | .varD _ _ => true

/-- Every call occurring anywhere inside a declaration's bodies. -/
def declCalls : Decl → List String
  | .classD c => c.members.flatMap memberCalls
  | .constD _ _ => []
  | .typeAliasD _ _ => []
  | .functionD _ _ _ b => (b.map stmtCalls).getD []
  | .varD _ _ => []

/-- The member name a class member declares, when it has one. -/
def memberName : Member → Option String
  | .field n _ _ _ => some n
  | .method n _ _ _ _ => some n
  | .ctor _ _ => none

/-- Every property name a declaration introduces: its own members (for a
class) and all object-type keys nested in its member, const, or alias
types. -/
def declFieldNames : Decl → List String
  | .classD c => c.members.flatMap (fun m =>
      (memberName m).toList ++
      (match m with
       | .field _ _ t _ => tyFields t
       | .method _ p r _ _ => plFields p ++ tyFields r
       | .ctor p _ => plFields p))
  | .constD _ t => tyFields t
  | .typeAliasD _ t => tyFields t
  | .functionD _ p r _ => plFields p ++ tyFields r
  | .varD _ t => tyFields t

/-- Every type name a declaration references: its superclass, implements
clause, and the names inside all its member, const, or alias types. -/
def declRefs : Decl → List String
  | .classD c =>
      c.parent.toList ++ c.impls ++
      c.members.flatMap (fun m =>
        match m with
        | .field _ _ t _ => tyRefs t
        | .method _ p r _ _ => plRefs p ++ tyRefs r
        | .ctor p _ => plRefs p)
  | .constD _ t => tyRefs t
  | .typeAliasD _ t => tyRefs t
  | .functionD _ p r _ => plRefs p ++ tyRefs r
  | .varD _ t => tyRefs t

/-- The names of every top-level declaration of the module. -/
def declaredNames : List String := decls.map declName

def classNames : List String :=
  decls.filterMap (fun d => match d with | .classD c => some c.name | _ => none)

def isClassDeclared (n : String) : Bool := classNames.contains n

def classByName (n : String) : Option ClassDecl :=
  decls.findSome? (fun d => match d with
    | .classD c => if c.name == n then some c else none
    | _ => none)

/-- The declared superclass of a class, by name. -/
def superOf (n : String) : Option String :=
  match classByName n with
  | some c => c.parent
  | none => none

/-- Whether the superclass chain of `n` reaches `ARchitectObject` within the
given fuel (the module has finitely many classes, so 100 is ample). -/
def reachesAR : Nat → String → Bool
  | 0, _ => false
  | Nat.succ k, n =>
      n == "ARchitectObject" ||
      (match superOf n with
       | some p => reachesAR k p
       | none => false)

def extendsARchitectObject (n : String) : Bool := reachesAR 100 n

/-- The claim C2 reads the file as flat: no declaration references (extends
or names in a type) another declaration of the file. -/
def declsAreFlat : Bool :=
  decls.all (fun d => (declRefs d).all (fun n => !declaredNames.contains n))

/-- The return types of every method and of every function-typed field of a
class declaration. -/
def memberRet : Member → List TSType
  | .field _ _ (.fn _ r) _ => [r]
  | .field _ _ _ _ => []
  | .method _ _ r _ _ => [r]
  | .ctor _ _ => []

def allMethodRets : List TSType :=
  decls.flatMap (fun d => match d with
    | .classD c => c.members.flatMap memberRet
    | _ => [])

/-- A return type is clean when it never names an error-like outcome:
no reference to `Error`, `null`, or `undefined` occurs in it. -/
def retClean (t : TSType) : Bool :=
  (tyRefs t).all (fun n => !(n == "Error" || n == "null" || n == "undefined"))

/-- Look up the doc comment of a member of a class. -/
def memberDocOf (cls mem : String) : Option String :=
  match classByName cls with
  | none => none
  | some c => c.members.findSome? (fun m => match m with
      | .field n _ _ d => if n == mem then d else none
      | .method n _ _ _ d => if n == mem then d else none
      | .ctor _ _ => none)

/-- Look up a member of a class by name. -/
def memberOf (cls mem : String) : Option Member :=
  match classByName cls with
  | none => none
  | some c => c.members.find? (fun m => memberName m == some mem)

def numClassConst : Nat :=
  (decls.filter (fun d => kindOf d = DeclKind.classK || kindOf d = DeclKind.constK)).length

/-- A type is a callback shape when it is a function type or a reference to
one of the declared callback aliases. -/
def isCallbackTy : TSType → Bool
  | .fn _ _ => true
  | .named n =>
      n == "callback" || n == "RecognizedCallback" || n == "InterruptionCallback" ||
      n == "ErrorCallback"
  | _ => false

def isVoidTy : TSType → Bool
  | .named n => n == "void"
  | _ => false

mutual

/-- Every property a type expression declares, with its optionality flag and
type: the keys of object types, recursively, through unions, arrays and
function parameter and return types. -/
def tyProps : TSType → List (String × Bool × TSType)
  | .named _ => []
  | .strLit _ => []
  | .unspecified => []
  | .union a b => tyProps a ++ tyProps b
  | .arr t => tyProps t
  | .fn p r => plProps p ++ tyProps r
  | .obj fs => flProps fs

def plProps : ParamList → List (String × Bool × TSType)
  | .nil => []
  | .cons _ _ t rest => tyProps t ++ plProps rest

def flProps : FieldList → List (String × Bool × TSType)
  | .nil => []
  | .cons n o t rest => (n, o, t) :: (tyProps t ++ flProps rest)

end

/-- Every property a declaration introduces, with optionality and type: its
class members together with every object-type key nested anywhere in its
member, const, or alias types (constructor option objects included). -/
def declProps : Decl → List (String × Bool × TSType)
  | .classD c => c.members.flatMap (fun m =>
      match m with
      | .field n o t _ => (n, o, t) :: tyProps t
      | .method _ p r _ _ => plProps p ++ tyProps r
      | .ctor p _ => plProps p)
  | .constD _ t => tyProps t
  | .typeAliasD _ t => tyProps t
  | .functionD _ p r _ => plProps p ++ tyProps r
  | .varD _ t => tyProps t

/-- The properties named `onError` a declaration introduces anywhere. -/
def onErrorPropsOf (d : Decl) : List (String × Bool × TSType) :=
  (declProps d).filter (fun p => p.1 == "onError")

/-- How many `onError` properties of a declaration are not callback-typed. -/
def nonCallbackOnErrorCount (d : Decl) : Nat :=
  ((onErrorPropsOf d).filter (fun p => !isCallbackTy p.2.2)).length

/-- The top-level parameters of a parameter list, with optionality and
type. -/
def plTop : ParamList → List (String × Bool × TSType)
  | .nil => []
  | .cons n o t rest => (n, o, t) :: plTop rest

/-- Every declared method or constructor parameter of a declaration. -/
def declParams : Decl → List (String × Bool × TSType)
  | .classD c => c.members.flatMap (fun m =>
      match m with
      | .method _ p _ _ _ => plTop p
      | .ctor p _ => plTop p
      | .field _ _ _ _ => [])
  | _ => []

/-- The parameter list and return type of a method member. -/
def methodSig : Member → Option (ParamList × TSType)
  | .method _ p r _ _ => some (p, r)
  | _ => none

def hasMemberNamed (c : ClassDecl) (n : String) : Bool :=
  c.members.any (fun m => memberName m == some n)

/-- The entities named in the five informal clusters of the spec's system
overview. -/
def clusterNames : List String :=
  ["ARchitectObject", "Drawable", "Drawable2D", "ARObject", "GeoObject", "Positionable",
   "Location", "GeoLocation", "RelativeLocation", "ActionArea", "ActionRange",
   "ImageResource", "Model", "Sound", "VideoDrawable", "HtmlDrawable",
   "ImageTracker", "ImageTrackable", "CloudRecognitionService", "InstantTracker",
   "InstantTrackable", "TargetCollectionResource",
   "Animation", "AnimationGroup", "PropertyAnimation", "ModelAnimation", "EasingCurve"]

/-- The 31 classes whose declared superclass chain reaches `ARchitectObject`
(counting `ARchitectObject` itself). -/
def rootedClassNames : List String :=
  ["ARchitectObject", "ActionArea", "ActionRange", "Drawable", "Drawable2D",
   "ImageDrawable", "AnimatedImageDrawable", "ARObject", "Animation", "AnimationGroup",
   "ImageResource", "Location", "GeoLocation", "Circle", "HtmlDrawable", "GeoObject",
   "EasingCurve", "ImageTrackable", "ImageTracker", "TargetCollectionResource",
   "CloudRecognitionService", "InstantTrackable", "InstantTracker", "Label", "Model",
   "ModelAnimation", "Positionable", "PropertyAnimation", "RelativeLocation",
   "Sound", "VideoDrawable"]

/-- The 17 classes whose superclass chain never reaches `ARchitectObject`. -/
def unrootedClassNames : List String :=
  ["ARObjectDrawables", "BoundingRectangle", "GeoObjectDrawables", "ImageTrackerOptions",
   "ImageTrackableOptions", "InstantTrackableOptions", "EASING_CURVE_TYPE",
   "DrawableOptions", "Drawable2DOptions", "GeoObjectOptions", "PositionableOptions",
   "LabelOptions", "Style", "radar", "VideoDrawableOptions", "Vector3", "_EVENT_HANDLERS"]

/-! Claims. -/

/-- C1: the file contains zero executable logic.  Every top-level declaration
of module "AR" is a class, a constant, or a type alias; no method, function,
or constructor anywhere in the module carries a body, and consequently no
declaration contains a call or any other statement. -/
theorem claim_C1_declaration_only :
    decls.all (fun d =>
      kindOf d == DeclKind.classK || kindOf d == DeclKind.constK ||
      kindOf d == DeclKind.typeAliasK) = true
    ∧ decls.all declHasNoBody = true
    ∧ decls.all (fun d => (declCalls d).isEmpty) = true :=
  ⟨rfl, rfl, rfl⟩

/-- C2 counterexample: the declarations are not flat and independent.  The
very second class of the file, `ActionArea`, extends `ARchitectObject`, a
class declared in the same file, so `declsAreFlat` is false. -/
theorem claim_C2_counterexample :
    declsAreFlat = false
    ∧ superOf "ActionArea" = some "ARchitectObject"
    ∧ isClassDeclared "ARchitectObject" = true :=
  ⟨rfl, rfl, rfl⟩

/-- C2 amended: the declared entities do reference one another — through
extends clauses (`ActionArea extends ARchitectObject`) and member types
(`ActionRange.location : Location`) — but none calls into another: the file
declares no bodies, so no declaration contains a call. -/
theorem claim_C2_amended :
    superOf "ActionArea" = some "ARchitectObject"
    ∧ (declRefs (Decl.classD ActionRange)).contains "Location" = true
    ∧ isClassDeclared "Location" = true
    ∧ decls.all declHasNoBody = true
    ∧ decls.all (fun d => (declCalls d).isEmpty) = true :=
  ⟨rfl, rfl, rfl, rfl, rfl⟩

/-- C3 counterexample: not every class of module "AR" extends
`ARchitectObject`.  `BoundingRectangle` is declared as a class with no
extends clause at all, so its chain never reaches `ARchitectObject`. -/
theorem claim_C3_counterexample :
    isClassDeclared "BoundingRectangle" = true
    ∧ superOf "BoundingRectangle" = none
    ∧ extendsARchitectObject "BoundingRectangle" = false
    ∧ classNames.all extendsARchitectObject = false :=
  ⟨rfl, rfl, rfl, rfl⟩

/-- C3 amended: `ARchitectObject` is the base type of the engine-entity
classes but not of all classes: exactly 31 of the 48 declared classes reach
`ARchitectObject` through their extends chains, while the 17 helper and
options shapes (`BoundingRectangle`, `Vector3`, `Style`, `radar`, the
`*Options` classes, `_EVENT_HANDLERS`, the drawables containers, and
`EASING_CURVE_TYPE`) do not. -/
theorem claim_C3_amended :
    classNames.filter extendsARchitectObject = rootedClassNames
    ∧ classNames.filter (fun n => !extendsARchitectObject n) = unrootedClassNames :=
  ⟨rfl, rfl⟩

/-- C4: the body of `ARchitectObject` consists of exactly two members — a
required field `destroyed : boolean` and a bodyless method
`destroy(): void` — and nothing else. -/
theorem claim_C4_architectobject_members :
    ARchitectObject.members =
      [ Member.field "destroyed" false (TSType.named "boolean") none,
        Member.method "destroy" ParamList.nil (TSType.named "void") none none ]
    ∧ ARchitectObject.members.length = 2 :=
  ⟨rfl, rfl⟩

/-- C5 counterexample: not every failure surface is a callback.  The
documentation of `Drawable2D.getBoundingRectangle` states that null is
returned in case of an error, and the member is an ordinary method returning
`BoundingRectangle`, not a callback. -/
theorem claim_C5_counterexample :
    (memberDocOf "Drawable2D" "getBoundingRectangle").map
      (fun d => strHas d "In case of an error, null will be returned") = some true
    ∧ (memberOf "Drawable2D" "getBoundingRectangle").bind methodSig =
        some (ParamList.nil, TSType.named "BoundingRectangle")
    ∧ isCallbackTy (TSType.named "BoundingRectangle") = false :=
  ⟨rfl, rfl, rfl⟩

/-- C5 amended: the declared error surface is not uniformly callback-shaped.
Every property named `onError` anywhere in the module is optional, and all
but one are callback-typed; the exception is in `ImageResource`, whose
constructor options declare `onError?: void` — a signature-level error
member that is not a callback.  Every method or constructor parameter named
`onError` is an optional callback parameter, and no declared method return
type names `Error`, `null`, or `undefined`; but documentation adds two
non-callback error results: `Drawable2D.getBoundingRectangle` documents a
null return on error and `Location.distanceToUser` documents an undefined
return when the user position cannot be determined. -/
theorem claim_C5_amended :
    decls.all (fun d => (onErrorPropsOf d).all (fun p => p.2.1)) = true
    ∧ (decls.filter (fun d => nonCallbackOnErrorCount d != 0)).map declName = ["ImageResource"]
    ∧ ((onErrorPropsOf (Decl.classD ImageResource)).filter
        (fun p => !isCallbackTy p.2.2)).map (fun p => (p.1, p.2.1, isVoidTy p.2.2)) =
        [("onError", true, true)]
    ∧ decls.all (fun d => (declParams d).all
        (fun p => !(p.1 == "onError") || (p.2.1 && isCallbackTy p.2.2))) = true
    ∧ allMethodRets.all retClean = true
    ∧ (memberDocOf "Drawable2D" "getBoundingRectangle").map
        (fun d => strHas d "null will be returned") = some true
    ∧ (memberDocOf "Location" "distanceToUser").map
        (fun d => strHas d "undefined will be returned") = some true :=
  ⟨rfl, rfl, rfl, rfl, rfl, rfl, rfl⟩

/-- C6: module "AR" declares 53 top-level classes and constants (48 classes
and 5 constants), which is approximately the 60 the spec reports. -/
theorem claim_C6_decl_count :
    numClassConst = 53 ∧ 50 ≤ numClassConst ∧ numClassConst ≤ 70 :=
  ⟨rfl, by decide, by decide⟩

/-- C7: every entity named in the spec's five cluster lists is declared as a
class in module "AR". -/
theorem claim_C7_cluster_entities :
    clusterNames.all isClassDeclared = true :=
  rfl

/-- C8: `Location.distanceToUser` is declared with no parameters and return
type `number` alone — no union with `undefined` — even though its own doc
comment states that undefined will be returned when the user's position
cannot be determined. -/
theorem claim_C8_distanceToUser :
    (memberOf "Location" "distanceToUser").bind methodSig =
      some (ParamList.nil, TSType.named "number")
    ∧ (memberDocOf "Location" "distanceToUser").map
        (fun d => strHas d "undefined will be returned") = some true
    ∧ tyRefs (TSType.named "number") = ["number"] :=
  ⟨rfl, rfl, rfl⟩

/-- C9: the scale-gesture handler spelling is uniformly `onScaleBegan`,
`onScaleChanged`, `onscaleEnded` (lowercase s) in `Drawable`, `ARObject`,
the `context` constant, and `_EVENT_HANDLERS`, and no declaration of the
module introduces any property named `onScaleEnded`. -/
theorem claim_C9_onscaleEnded_spelling :
    (["onScaleBegan", "onScaleChanged", "onscaleEnded"].all (fun n =>
        hasMemberNamed Drawable n && hasMemberNamed ARObject n &&
        hasMemberNamed EVENT_HANDLERS n && (tyFields context).contains n)) = true
    ∧ decls.all (fun d => !(declFieldNames d).contains "onScaleEnded") = true :=
  ⟨rfl, rfl⟩

/-- C10: `ActionArea.isInArea` types its single parameter as `Geolocation`,
a name the module never declares and which differs from the module's own
`GeoLocation` class. -/
theorem claim_C10_isInArea_geolocation :
    (memberOf "ActionArea" "isInArea").bind methodSig =
      some (ps [("geoLocation", false, TSType.named "Geolocation")], TSType.named "boolean")
    ∧ declaredNames.contains "Geolocation" = false
    ∧ declaredNames.contains "GeoLocation" = true
    ∧ ("Geolocation" == "GeoLocation") = false :=
  ⟨rfl, rfl, rfl, rfl⟩

end AR
